import Mathlib

/-!
# Verification of the naver-maps-mcp tool server

Shallow embedding of the core of the repository: the coordinate
classifier `isCoordinate`, the provider request gateway
`makeNaverAPIRequest`, and the four tool handlers (directions, geocode,
reverse geocode, static map), as implemented in the latest revision of
`src/index.ts` (the revision with the `expectBinary` gateway flag, the
range-checking classifier, and the base64 inline static map).

Modelling conventions:
* JavaScript numbers are modelled as exact rationals (`ℚ`); the provider
  delivers integer meter/millisecond/fare quantities, modelled as `ℕ`.
  IEEE-754 rounding of doubles is outside the model.
* `parseFloat` is modelled by `jsParseFloat`, following the ECMAScript
  `parseFloat` grammar (longest valid prefix; optional sign; `Infinity`;
  decimal digits with optional fraction and exponent); a non-parse yields
  `JSNum.nan`.
* HTTP exchanges are modelled by an oracle environment mapping each
  request to an `HttpOutcome`; `fetch`'s `response.ok` distinction is the
  constructor distinction `fail`/`success`.  Handlers return their result
  together with the list of API calls they issued, so that "no geocode
  call is made" is a provable statement.
* JavaScript exceptions and the handlers' `try`/`catch` boundary are
  modelled with `Except String`; every handler is a total function into
  a `ToolResult`, mirroring that no exception escapes the handler.
-/

/-- Result of JavaScript `parseFloat`: NaN, a signed infinity, or a
finite value (modelled exactly as a rational). -/
inductive JSNum where
  | nan : JSNum
  | inf (pos : Bool) : JSNum
  | val (q : ℚ) : JSNum
deriving DecidableEq, Repr

/-- `isNaN` on a `parseFloat` result. -/
def JSNum.isNaN : JSNum → Bool
  | .nan => true
  | _ => false

/-- JavaScript comparison `c ≤ n` for a parsed number against a rational
constant (`NaN` compares false, `Infinity` is above everything). -/
def jsGeC (n : JSNum) (c : ℚ) : Bool :=
  match n with
  | .nan => false
  | .inf pos => pos
  | .val q => decide (c ≤ q)

/-- JavaScript comparison `n ≤ c` for a parsed number against a rational
constant (`NaN` compares false, `-Infinity` is below everything). -/
def jsLeC (n : JSNum) (c : ℚ) : Bool :=
  match n with
  | .nan => false
  | .inf pos => !pos
  | .val q => decide (q ≤ c)

/-- Numeric value of a list of decimal digit characters. -/
def natOfDigits (ds : List Char) : ℕ :=
  ds.foldl (fun n c => 10 * n + (c.toNat - 48)) 0

/-- The longest leading run of decimal digits, when non-empty. -/
def nonEmptyDigits (l : List Char) : Option (List Char) :=
  let ds := (l.span Char.isDigit).1
  if ds.isEmpty then none else some ds

/-- Signed decimal integer at the head of the input (for exponents). -/
def parseSignedDigits (l : List Char) : Option ℤ :=
  match l with
  | '+' :: r => (fun ds => (natOfDigits ds : ℤ)) <$> nonEmptyDigits r
  | '-' :: r => (fun ds => -(natOfDigits ds : ℤ)) <$> nonEmptyDigits r
  | r => (fun ds => (natOfDigits ds : ℤ)) <$> nonEmptyDigits r

/-- Exponent part `e`/`E` followed by a signed digit run; `none` when the
input does not start with a complete exponent (parseFloat then stops
before the `e`, e.g. `"1e"` parses as `1`). -/
def parseExponent (l : List Char) : Option ℤ :=
  match l with
  | 'e' :: rest => parseSignedDigits rest
  | 'E' :: rest => parseSignedDigits rest
  | _ => none

/-- Exact value `n / 10^k * 10^e` of a decimal literal with integer
mantissa `n`, `k` fraction digits, and exponent `e`, built with `mkRat`
so that it evaluates by kernel reduction. -/
def decValue (n k : ℕ) (e : ℤ) : ℚ :=
  if 0 ≤ e then mkRat (n * 10 ^ e.toNat) (10 ^ k)
  else mkRat n (10 ^ k * 10 ^ (-e).toNat)

/-- Unsigned decimal literal of the ECMAScript `parseFloat` grammar at
the head of the input: `digits [. digits] [exp]` or `. digits [exp]`;
trailing garbage is ignored (longest valid prefix). -/
def decMantissa (l : List Char) : Option ℚ :=
  let (ds, r1) := l.span Char.isDigit
  if ds.isEmpty then
    match r1 with
    | '.' :: r2 =>
      let (fs, r3) := r2.span Char.isDigit
      if fs.isEmpty then none
      else some (decValue (natOfDigits (ds ++ fs)) fs.length ((parseExponent r3).getD 0))
    | _ => none
  else
    match r1 with
    | '.' :: r2 =>
      let (fs, r3) := r2.span Char.isDigit
      some (decValue (natOfDigits (ds ++ fs)) fs.length ((parseExponent r3).getD 0))
    | _ => some (decValue (natOfDigits ds) 0 ((parseExponent r1).getD 0))

/-- Body of `parseFloat` after the optional sign: `Infinity` or a
decimal literal; anything else is NaN. -/
def jsParseUnsigned (pos : Bool) (l : List Char) : JSNum :=
  if l.take 8 = "Infinity".toList then JSNum.inf pos
  else
    match decMantissa l with
    | some q => JSNum.val (if pos then q else -q)
    | none => JSNum.nan

/-- `parseFloat` on a character list: optional sign then unsigned body. -/
def jsParseFloatList (l : List Char) : JSNum :=
  match l with
  | '+' :: rest => jsParseUnsigned true rest
  | '-' :: rest => jsParseUnsigned false rest
  | rest => jsParseUnsigned true rest

/-- Model of JavaScript `parseFloat` on a string: leading whitespace is
skipped, then the longest valid decimal prefix is evaluated; NaN when no
prefix parses. -/
def jsParseFloat (s : String) : JSNum :=
  jsParseFloatList (s.toList.dropWhile Char.isWhitespace)

/-- JavaScript `String.prototype.split(",")` on a character list: the
comma-separated fields, in order (`[""]` for the empty string). -/
def splitOnComma : List Char → List (List Char)
  | [] => [[]]
  | ',' :: rest => [] :: splitOnComma rest
  | c :: rest =>
    match splitOnComma rest with
    | p :: ps => (c :: p) :: ps
    | [] => [[c]]

/-- JavaScript `String.prototype.trim` on a character list. -/
def trimChars (l : List Char) : List Char :=
  ((l.dropWhile Char.isWhitespace).reverse.dropWhile Char.isWhitespace).reverse

/-- The coordinate classifier of the latest revision
(`src/unnamed/part_001`, `isCoordinate`): split on every comma, parse
the first two parts (trimmed) with `parseFloat`
(`const [lng, lat] = str.split(",").map((s) => parseFloat(s.trim()))`),
and require both to be non-NaN with the first in [-180,180] and the
second in [-90,90].  Pure function, no side effects. -/
def isCoordinate (str : String) : Bool :=
  match (splitOnComma str.toList).map (fun s => jsParseFloatList (trimChars s)) with
  | lng :: lat :: _ =>
    !lng.isNaN && !lat.isNaN &&
      jsGeC lng (-180) && jsLeC lng 180 && jsGeC lat (-90) && jsLeC lat 90
  | _ => false

-- scratch checks
example : jsParseFloat "127.0" = JSNum.val 127 := by decide
example : jsParseFloat "Seoul" = JSNum.nan := by decide
example : isCoordinate "127.0,37.5" = true := by decide
example : isCoordinate "1,2,3" = true := by decide
example : isCoordinate "Seoul" = false := by decide
example : isCoordinate "200,10" = false := by decide
example : isCoordinate "127.0" = false := by decide
example : isCoordinate " 127.0 , 37.5 " = true := by decide
example : jsParseFloat "1e2" = JSNum.val 100 := by decide
example : jsParseFloat "-Infinity" = JSNum.inf false := by decide
example : jsParseFloat ".5" = JSNum.val (mkRat 1 2) := by decide
example : jsParseFloat "12abc" = JSNum.val 12 := by decide

/-! ## Provider request gateway and tool results -/

/-- Outcome of one `fetch` to the provider, as seen by the gateway: a
non-success HTTP status with its reason phrase (`response.ok` false), or
a successful response with a typed body. -/
inductive HttpOutcome (β : Type) where
  | fail (status : ℕ) (statusText : String) : HttpOutcome β
  | success (body : β) : HttpOutcome β

/-- The error message thrown by `makeNaverAPIRequest` on a non-success
status (`src/unnamed/part_001`, lines 55-59). -/
def gatewayErrorMsg (status : ℕ) (statusText : String) : String :=
  "네이버 API 오류: " ++ toString status ++ " " ++ statusText

/-- The gateway `makeNaverAPIRequest` (latest revision): on a
non-success response it throws the gateway error, otherwise it returns
the (already typed) body; the thrown error is modelled with `Except`. -/
def makeNaverAPIRequest {β : Type} (o : HttpOutcome β) : Except String β :=
  match o with
  | .fail status statusText => .error (gatewayErrorMsg status statusText)
  | .success body => .ok body

/-- One item of an MCP tool result: a text block, or an inline image
carried as an `image_url` data URI. -/
inductive ContentItem where
  | text (t : String) : ContentItem
  | image (image_url : String) : ContentItem
deriving DecidableEq

/-- An MCP tool result: the `content` array returned by a handler. -/
structure ToolResult where
  content : List ContentItem
deriving DecidableEq

/-- The `catch` boundary of every handler: a thrown error `e` becomes
the text result `오류 발생: <message>`. -/
def errorResult (e : String) : ToolResult :=
  ⟨[.text ("오류 발생: " ++ e)]⟩

/-- Query parameters of a directions request
(`{ start, goal, option, waypoints? }`). -/
structure DirectionsParams where
  start : String
  goal : String
  option : String
  waypoints : Option String
deriving DecidableEq

/-- Query parameters of a reverse-geocode request
(`{ coords, output }`). -/
structure ReverseGeocodeParams where
  coords : String
  output : String
deriving DecidableEq

/-- Query parameters of a static-map request
(`{ center, level, w, h, format }`). -/
structure StaticMapParams where
  center : String
  level : ℕ
  w : ℕ
  h : ℕ
  format : String
deriving DecidableEq

/-- One provider API call issued by a handler, recorded so that
statements like "no geocode call is made" are provable. -/
inductive ApiCall where
  | geocode (query : String) : ApiCall
  | directions (p : DirectionsParams) : ApiCall
  | reverseGeocode (p : ReverseGeocodeParams) : ApiCall
  | staticMap (p : StaticMapParams) : ApiCall
deriving DecidableEq

/-! ## Geocode responses and the geocode handler -/

/-- One candidate of a geocode response (`addresses[i]`); the provider
delivers `x` (longitude) and `y` (latitude) as strings, and optional
road-based and parcel-based address renderings. -/
structure GeocodeAddr where
  x : String
  y : String
  roadAddress : Option String
  jibunAddress : Option String

/-- A geocode response body; `addresses` may be absent
(the code guards with `data.addresses?.length` / `!data.addresses`). -/
structure GeocodeResponse where
  addresses : Option (List GeocodeAddr)

/-- JavaScript truthiness of a possibly-absent string
(`undefined` and `""` are falsy). -/
def truthyStr : Option String → Bool
  | some s => !s.isEmpty
  | none => false

/-- Rendering of a possibly-absent string in a template literal
(`undefined` prints as `"undefined"`). -/
def jsShowOptStr : Option String → String
  | some s => s
  | none => "undefined"

/-- `addr.roadAddress || addr.jibunAddress` as rendered into the
geocode handler's template literal. -/
def preferredAddress (a : GeocodeAddr) : String :=
  if truthyStr a.roadAddress then jsShowOptStr a.roadAddress
  else jsShowOptStr a.jibunAddress

/-- The fixed not-found message of the geocode handler. -/
def geocodeNotFoundText : String := "주소를 찾을 수 없습니다."

/-- The `naver_geocode` tool handler (`src/unnamed/part_001`, lines
185-217): one geocode call; on zero candidates the fixed not-found
text; otherwise the first candidate's preferred address and its
coordinates, latitude before longitude; any thrown error is caught and
reported as an error text.  Total function: never throws. -/
def geocodeHandler (env : String → HttpOutcome GeocodeResponse)
    (address : String) : ToolResult × List ApiCall :=
  let log := [ApiCall.geocode address]
  match makeNaverAPIRequest (env address) with
  | .error e => (errorResult e, log)
  | .ok data =>
    match data.addresses with
    | some (addr :: _) =>
      (⟨[.text ("📍 주소: " ++ preferredAddress addr ++ "\n🌐 좌표: " ++
        addr.y ++ ", " ++ addr.x ++ " (위도, 경도)")]⟩, log)
    | _ => (⟨[.text geocodeNotFoundText]⟩, log)

/-! ## Reverse geocode -/

/-- One result of a reverse-geocode response, with its descriptive
text label. -/
structure ReverseGeocodeResult where
  text : String

/-- A reverse-geocode response body; `results` may be absent. -/
structure ReverseGeocodeResponse where
  results : Option (List ReverseGeocodeResult)

/-- The fixed not-found message of the reverse-geocode handler. -/
def reverseGeocodeNotFoundText : String := "해당 좌표의 주소를 찾을 수 없습니다."

/-- The `naver_reverse_geocode` tool handler (`src/unnamed/part_001`,
lines 219-254).  `lat` and `lng` are JavaScript numbers; their template
rendering is abstracted by `numToStr`.  The wire query carries
`coords = lng ++ "," ++ lat` (longitude first), while the result text
echoes the inputs latitude first. -/
def reverseGeocodeHandler (numToStr : ℚ → String)
    (env : ReverseGeocodeParams → HttpOutcome ReverseGeocodeResponse)
    (lat lng : ℚ) : ToolResult × List ApiCall :=
  let params : ReverseGeocodeParams := ⟨numToStr lng ++ "," ++ numToStr lat, "json"⟩
  let log := [ApiCall.reverseGeocode params]
  match makeNaverAPIRequest (env params) with
  | .error e => (errorResult e, log)
  | .ok data =>
    match data.results with
    | some (r :: _) =>
      (⟨[.text ("🌐 좌표: " ++ numToStr lat ++ ", " ++ numToStr lng ++
        "\n📍 주소: " ++ r.text)]⟩, log)
    | _ => (⟨[.text reverseGeocodeNotFoundText]⟩, log)

-- scratch checks
example : toString (403 : ℕ) = "403" := by decide
example :
    (geocodeHandler (fun _ => .fail 403 "Forbidden") "x").1 =
      errorResult "네이버 API 오류: 403 Forbidden" := by decide

/-! ## Directions: response shape, derived fields, handler

The provider delivers integer meter / millisecond / won quantities;
`distance`, `duration` and the fares are therefore modelled as `ℕ`, and
the JavaScript arithmetic on them (`(distance / 1000).toFixed(1)`,
`Math.round(duration / 60000)`, `toLocaleString()`) is evaluated in
exact arithmetic.  The rounding characterizations proved below certify
that the integer forms used here are that exact arithmetic. -/

/-- Route summary fields used by the handler (`best.summary`). -/
structure RouteSummary where
  distance : ℕ
  duration : ℕ
  tollFare : Option ℕ
  fuelPrice : Option ℕ
  startLocation : String
  goalLocation : String

/-- One route of a profile list; only its `summary` is consumed. -/
structure RouteData where
  summary : RouteSummary

/-- The four optional profile lists of `data.route`. -/
structure DirectionsRoute where
  trafast : Option (List RouteData)
  traoptimal : Option (List RouteData)
  tracomfort : Option (List RouteData)
  trainormal : Option (List RouteData)

/-- A directions response body; `route` may be absent
(`data.route || {}`). -/
structure DirectionsResponse where
  route : Option DirectionsRoute

/-- The empty object `{}` substituted when `route` is absent. -/
def emptyRoute : DirectionsRoute := ⟨none, none, none, none⟩

/-- `list?.[0]`: first element of an optional list, when both exist. -/
def profileHead (o : Option (List RouteData)) : Option RouteData :=
  o.bind List.head?

/-- Route selection of the directions handler:
`route.trafast?.[0] || route.traoptimal?.[0] || route.tracomfort?.[0]
|| route.trainormal?.[0]` — first non-empty profile list in this fixed
order wins; the requested option plays no part. -/
def bestRoute (r : DirectionsRoute) : Option RouteData :=
  profileHead r.trafast <|> profileHead r.traoptimal <|>
    profileHead r.tracomfort <|> profileHead r.trainormal

/-- `(m / 1000).toFixed(1)` scaled to integer tenths of a kilometer:
the nearest integer to `m / 100`, half rounded up (`toFixed` picks the
larger candidate on a tie), evaluated as `(m + 50) / 100` in `ℕ`. -/
def kmTenths (m : ℕ) : ℕ := (m + 50) / 100

/-- The string `(m / 1000).toFixed(1)` for a distance of `m` meters. -/
def kmString (m : ℕ) : String :=
  toString (kmTenths m / 10) ++ "." ++ toString (kmTenths m % 10)

/-- `Math.round(d / 60000)` for a duration of `d` milliseconds: the
nearest integer, half rounded toward +∞, evaluated as
`(d + 30000) / 60000` in `ℕ`. -/
def minutesOf (d : ℕ) : ℕ := (d + 30000) / 60000

/-- Reversed digit list grouped in threes (for `toLocaleString`). -/
def chunk3 : List Char → List (List Char)
  | [] => []
  | a :: b :: c :: rest => [a, b, c] :: chunk3 rest
  | l => [l]

/-- `Number.prototype.toLocaleString()` on a natural number: decimal
digits with a comma every three digits from the right. -/
def toLocaleStringNat (n : ℕ) : String :=
  String.mk (List.intercalate [','] (((chunk3 (toString n).toList.reverse).map List.reverse).reverse))

/-- `summary.tollFare ? tollFare.toLocaleString() + "원" : "0원"` —
the default branch is taken on the falsy values `undefined` and `0`. -/
def formatFare : Option ℕ → String
  | some v => if v = 0 then "0원" else toLocaleStringNat v ++ "원"
  | none => "0원"

/-- The fixed not-found message of the directions handler. -/
def routeNotFoundText : String := "경로를 찾을 수 없습니다."

/-- The formatted text block of a found route, exactly as the handler's
template literal assembles it from the derived `result` fields. -/
def directionsText (s : RouteSummary) : String :=
  "🚗 길찾기 결과\n\n📍 출발: " ++ s.startLocation ++
    "\n📍 도착: " ++ s.goalLocation ++
    "\n\n📏 거리: " ++ kmString s.distance ++ "km" ++
    "\n⏱️ 소요시간: " ++ toString (minutesOf s.duration) ++ "분" ++
    "\n💰 통행료: " ++ formatFare s.tollFare ++
    "\n⛽ 예상 연료비: " ++ formatFare s.fuelPrice

/-- The geocode-if-not-coordinate step shared by the two legs of the
directions handler: a string already accepted by the classifier is kept
(no call); otherwise one geocode call is made and the first candidate's
`x,y` replaces the value, the original string surviving a zero-candidate
response; a gateway error propagates (to the handler's catch). -/
def resolvePoint (geocode : String → HttpOutcome GeocodeResponse)
    (s : String) : Except String String × List ApiCall :=
  if isCoordinate s then (.ok s, [])
  else
    match makeNaverAPIRequest (geocode s) with
    | .error e => (.error e, [ApiCall.geocode s])
    | .ok geo =>
      match geo.addresses with
      | some (a :: _) => (.ok (a.x ++ "," ++ a.y), [ApiCall.geocode s])
      | _ => (.ok s, [ApiCall.geocode s])

/-- Oracle environment of the directions handler: the provider's
answer to each geocode and directions request. -/
structure DirectionsEnv where
  geocode : String → HttpOutcome GeocodeResponse
  directions : DirectionsParams → HttpOutcome DirectionsResponse

/-- The `naver_directions` tool handler (`src/unnamed/part_001`, lines
82-180): resolve start and goal, call the directions endpoint
(`waypoints` forwarded only when truthy), select the best route under
the fixed profile precedence, and format the result; errors are caught
at the boundary.  Returns the result and the issued API calls. -/
def directionsHandler (env : DirectionsEnv) (start goal option : String)
    (waypoints : Option String) : ToolResult × List ApiCall :=
  match resolvePoint env.geocode start with
  | (.error e, log1) => (errorResult e, log1)
  | (.ok startCoords, log1) =>
    match resolvePoint env.geocode goal with
    | (.error e, log2) => (errorResult e, log1 ++ log2)
    | (.ok goalCoords, log2) =>
      let params : DirectionsParams :=
        ⟨startCoords, goalCoords, option,
          if truthyStr waypoints then waypoints else none⟩
      let log := log1 ++ log2 ++ [ApiCall.directions params]
      match makeNaverAPIRequest (env.directions params) with
      | .error e => (errorResult e, log)
      | .ok data =>
        match bestRoute (data.route.getD emptyRoute) with
        | none => (⟨[.text routeNotFoundText]⟩, log)
        | some best => (⟨[.text (directionsText best.summary)]⟩, log)

-- scratch checks
example : kmString 12345 = "12.3" := by decide
example : kmString 150 = "0.2" := by decide
example : minutesOf 185000 = 3 := by decide
example : toLocaleStringNat 1234567 = "1,234,567" := by decide
example : toLocaleStringNat 0 = "0" := by decide
example : formatFare (some 0) = "0원" := by decide
example : formatFare none = "0원" := by decide
example : formatFare (some 2500) = "2,500원" := by decide

/-! ## Base64 and the static map handler

`Buffer.from(buffer).toString("base64")` is standard RFC 4648 base64
with padding; bytes are modelled as naturals below 256. -/

/-- The base64 alphabet character of a sextet. -/
def b64Char (n : ℕ) : Char :=
  if n < 26 then Char.ofNat (65 + n)
  else if n < 52 then Char.ofNat (97 + (n - 26))
  else if n < 62 then Char.ofNat (48 + (n - 52))
  else if n = 62 then '+'
  else '/'

/-- Inverse of the base64 alphabet (`none` off the alphabet). -/
def b64Val (c : Char) : Option ℕ :=
  if 'A' ≤ c ∧ c ≤ 'Z' then some (c.toNat - 65)
  else if 'a' ≤ c ∧ c ≤ 'z' then some (c.toNat - 97 + 26)
  else if '0' ≤ c ∧ c ≤ '9' then some (c.toNat - 48 + 52)
  else if c = '+' then some 62
  else if c = '/' then some 63
  else none

/-- RFC 4648 base64 encoding of a byte list, with `=` padding: the
model of `Buffer.from(buffer).toString("base64")`. -/
def b64EncodeList : List ℕ → List Char
  | [] => []
  | [a] => [b64Char (a / 4), b64Char (a % 4 * 16), '=', '=']
  | [a, b] => [b64Char (a / 4), b64Char (a % 4 * 16 + b / 16), b64Char (b % 16 * 4), '=']
  | a :: b :: c :: rest =>
    b64Char (a / 4) :: b64Char (a % 4 * 16 + b / 16) ::
      b64Char (b % 16 * 4 + c / 64) :: b64Char (c % 64) :: b64EncodeList rest

/-- Standard base64 decoding (the inverse direction of the round-trip
property): groups of four characters yield three bytes, a final group
padded with `=` or `==` yields two bytes or one. -/
def b64DecodeList : List Char → Option (List ℕ)
  | [] => some []
  | c1 :: c2 :: c3 :: c4 :: rest =>
    match b64Val c1, b64Val c2 with
    | some s1, some s2 =>
      if c3 = '=' then
        if c4 = '=' ∧ rest = [] then some [s1 * 4 + s2 / 16] else none
      else
        match b64Val c3 with
        | some s3 =>
          if c4 = '=' then
            if rest = [] then some [s1 * 4 + s2 / 16, s2 % 16 * 16 + s3 / 4]
            else none
          else
            match b64Val c4, b64DecodeList rest with
            | some s4, some tail =>
              some ((s1 * 4 + s2 / 16) :: (s2 % 16 * 16 + s3 / 4) ::
                (s3 % 4 * 64 + s4) :: tail)
            | _, _ => none
        | none => none
    | _, _ => none
  | _ => none

/-- The static-map caption template of the latest revision. -/
def staticMapCaption (centerCoords : String) (level w h : ℕ) : String :=
  "🗺️ 정적 지도 (center: " ++ centerCoords ++ ", level: " ++ toString level ++
    ", size: " ++ toString w ++ "x" ++ toString h ++ ")"

/-- Oracle environment of the static-map handler. -/
structure StaticMapEnv where
  geocode : String → HttpOutcome GeocodeResponse
  staticMap : StaticMapParams → HttpOutcome (List ℕ)

/-- The error thrown by the static-map handler when geocoding the
center yields no candidate. -/
def geocodeEmptyError : String := "지오코딩 결과가 없습니다."

/-- Body of the `naver_static_map` handler (`src/unnamed/part_001`,
lines 259-314) up to its catch boundary: resolve the center (throwing
`지오코딩 결과가 없습니다.` when geocoding returns zero candidates),
fetch the raster endpoint as binary, base64-encode the bytes into a
`data:` URI, and return the inline image with a caption. -/
def staticMapBody (env : StaticMapEnv) (center : String)
    (level w h : ℕ) (format : String) :
    Except String ToolResult × List ApiCall :=
  let resolved : Except String String × List ApiCall :=
    if isCoordinate center then (.ok center, [])
    else
      match makeNaverAPIRequest (env.geocode center) with
      | .error e => (.error e, [ApiCall.geocode center])
      | .ok geo =>
        match geo.addresses with
        | some (a :: _) => (.ok (a.x ++ "," ++ a.y), [ApiCall.geocode center])
        | _ => (.error geocodeEmptyError, [ApiCall.geocode center])
  match resolved with
  | (.error e, log) => (.error e, log)
  | (.ok centerCoords, log) =>
    let params : StaticMapParams := ⟨centerCoords, level, w, h, format⟩
    let log := log ++ [ApiCall.staticMap params]
    match makeNaverAPIRequest (env.staticMap params) with
    | .error e => (.error e, log)
    | .ok buffer =>
      let base64 := String.mk (b64EncodeList buffer)
      let dataUri := "data:image/" ++ format ++ ";base64," ++ base64
      (.ok ⟨[.image dataUri, .text (staticMapCaption centerCoords level w h)]⟩, log)

/-- The `naver_static_map` tool handler: its body wrapped in the catch
boundary that turns any thrown error into an error text result. -/
def staticMapHandler (env : StaticMapEnv) (center : String)
    (level w h : ℕ) (format : String) : ToolResult × List ApiCall :=
  match staticMapBody env center level w h format with
  | (.ok r, log) => (r, log)
  | (.error e, log) => (errorResult e, log)

-- scratch checks
example : String.mk (b64EncodeList [77, 97, 110]) = "TWFu" := by decide
example : String.mk (b64EncodeList [77, 97]) = "TWE=" := by decide
example : String.mk (b64EncodeList [77]) = "TQ==" := by decide
example : b64DecodeList (b64EncodeList [0, 255, 16, 100]) = some [0, 255, 16, 100] := by decide

/-! ## Spec-worded reference definitions (for refinement claims) -/

/-- The classifier as the spec words it: split on the comma into
EXACTLY two parts, both (trimmed) parsing as finite numbers, the first
in [-180,180] and the second in [-90,90]. -/
def specIsCoordinate (s : String) : Bool :=
  match splitOnComma s.toList with
  | [a, b] =>
    match jsParseFloatList (trimChars a), jsParseFloatList (trimChars b) with
    | JSNum.val x, JSNum.val y =>
      decide (-180 ≤ x) && decide (x ≤ 180) && decide (-90 ≤ y) && decide (y ≤ 90)
    | _, _ => false
  | _ => false

/-- The amended acceptance condition: AT LEAST two comma-separated
parts, of which the first two (trimmed) parse as finite numbers in
range; parts beyond the second are ignored. -/
def acceptsFirstTwo (s : String) : Bool :=
  match splitOnComma s.toList with
  | a :: b :: _ =>
    match jsParseFloatList (trimChars a), jsParseFloatList (trimChars b) with
    | JSNum.val x, JSNum.val y =>
      decide (-180 ≤ x) && decide (x ≤ 180) && decide (-90 ≤ y) && decide (y ≤ 90)
    | _, _ => false
  | _ => false

/-! # Theorems for the claims -/

/-- Claim C1 counterexample: `"1,2,3"` splits into three comma-separated
fields (two commas), yet `isCoordinate` accepts it — refuting the claim
that every string with more than one comma is rejected. -/
theorem isCoordinate_multi_comma_counterexample :
    isCoordinate "1,2,3" = true ∧ (splitOnComma "1,2,3".toList).length = 3 := by
  decide

/-- Claim C1 (amended): `isCoordinate` returns true exactly for strings whose
comma-split has at least two fields with the first two, trimmed, parsing
as finite numbers, the first in [-180,180] and the second in [-90,90];
extra comma-separated fields are ignored rather than rejected.  For any
string with no comma, a non-finite first or second field, or an
out-of-range value it returns false; it is a pure function.  Every
string accepted by the spec's exactly-two-fields condition is accepted. -/
theorem isCoordinate_amended (s : String) :
    isCoordinate s = acceptsFirstTwo s ∧
    (specIsCoordinate s = true → isCoordinate s = true) := by
  have key : isCoordinate s = acceptsFirstTwo s := by
    unfold isCoordinate acceptsFirstTwo
    cases h : splitOnComma s.toList with
    | nil => simp
    | cons a tl =>
      cases tl with
      | nil => simp
      | cons b rest =>
        simp only [List.map_cons]
        cases hx : jsParseFloatList (trimChars a) <;>
          cases hy : jsParseFloatList (trimChars b) <;>
            simp [JSNum.isNaN, jsGeC, jsLeC]
  refine ⟨key, fun hs => ?_⟩
  rw [key]
  unfold specIsCoordinate at hs
  unfold acceptsFirstTwo
  cases h : splitOnComma s.toList with
  | nil => rw [h] at hs; exact absurd hs (by simp)
  | cons a tl =>
    cases tl with
    | nil => rw [h] at hs; exact absurd hs (by simp)
    | cons b rest =>
      cases rest with
      | nil => rw [h] at hs; exact hs
      | cons c rest2 => rw [h] at hs; exact absurd hs (by simp)

/-- Claim C1 witness: a concrete in-range coordinate string accepted both by
the spec condition and by the classifier. -/
theorem isCoordinate_amended_witness :
    specIsCoordinate "127.0,37.5" = true ∧ isCoordinate "127.0,37.5" = true :=
  ⟨by decide, (isCoordinate_amended "127.0,37.5").2 (by decide)⟩

/-! ## Helper lemmas on the resolve step and handler plumbing -/

theorem resolvePoint_coord (g : String → HttpOutcome GeocodeResponse)
    (s : String) (h : isCoordinate s = true) :
    resolvePoint g s = (.ok s, []) := by
  unfold resolvePoint
  rw [if_pos h]

theorem resolvePoint_hit (g : String → HttpOutcome GeocodeResponse)
    (s : String) (geo : GeocodeResponse) (a : GeocodeAddr)
    (rest : List GeocodeAddr) (h : isCoordinate s = false)
    (hg : g s = .success geo) (ha : geo.addresses = some (a :: rest)) :
    resolvePoint g s = (.ok (a.x ++ "," ++ a.y), [ApiCall.geocode s]) := by
  unfold resolvePoint
  rw [if_neg (by simp [h]), hg]
  simp [makeNaverAPIRequest, ha]

theorem resolvePoint_miss (g : String → HttpOutcome GeocodeResponse)
    (s : String) (geo : GeocodeResponse) (h : isCoordinate s = false)
    (hg : g s = .success geo)
    (ha : geo.addresses = none ∨ geo.addresses = some []) :
    resolvePoint g s = (.ok s, [ApiCall.geocode s]) := by
  unfold resolvePoint
  rw [if_neg (by simp [h]), hg]
  rcases ha with ha | ha <;> simp [makeNaverAPIRequest, ha]

theorem directionsHandler_found (env : DirectionsEnv)
    (start goal option : String) (wp : Option String)
    (startCoords goalCoords : String) (log1 log2 : List ApiCall)
    (data : DirectionsResponse) (best : RouteData)
    (h1 : resolvePoint env.geocode start = (.ok startCoords, log1))
    (h2 : resolvePoint env.geocode goal = (.ok goalCoords, log2))
    (hD : env.directions ⟨startCoords, goalCoords, option,
        if truthyStr wp then wp else none⟩ = .success data)
    (hbest : bestRoute (data.route.getD emptyRoute) = some best) :
    directionsHandler env start goal option wp =
      (⟨[.text (directionsText best.summary)]⟩,
        log1 ++ log2 ++ [ApiCall.directions ⟨startCoords, goalCoords, option,
          if truthyStr wp then wp else none⟩]) := by
  unfold directionsHandler
  rw [h1, h2]
  dsimp only
  rw [hD]
  simp [makeNaverAPIRequest, hbest]

theorem directionsHandler_notFound (env : DirectionsEnv)
    (start goal option : String) (wp : Option String)
    (startCoords goalCoords : String) (log1 log2 : List ApiCall)
    (data : DirectionsResponse)
    (h1 : resolvePoint env.geocode start = (.ok startCoords, log1))
    (h2 : resolvePoint env.geocode goal = (.ok goalCoords, log2))
    (hD : env.directions ⟨startCoords, goalCoords, option,
        if truthyStr wp then wp else none⟩ = .success data)
    (hbest : bestRoute (data.route.getD emptyRoute) = none) :
    directionsHandler env start goal option wp =
      (⟨[.text routeNotFoundText]⟩,
        log1 ++ log2 ++ [ApiCall.directions ⟨startCoords, goalCoords, option,
          if truthyStr wp then wp else none⟩]) := by
  unfold directionsHandler
  rw [h1, h2]
  dsimp only
  rw [hD]
  simp [makeNaverAPIRequest, hbest]

/-- Claim C2: route selection scans the profile lists in the exact
fixed precedence trafast, then traoptimal, then tracomfort, then
trainormal, and returns the head of the first non-empty one regardless
of the requested option: with only `tracomfort` populated and
`option = "trafast"` requested, the comfortable-profile route is
returned; whenever `trafast` is populated it wins; `traoptimal` wins
over `tracomfort` and `trainormal` when `trafast` is empty;
`trainormal` is selected only when the other three are empty; and with
all four empty nothing is selected. -/
theorem directions_profile_precedence
    (env : DirectionsEnv) (start goal : String) (wp : Option String)
    (data : DirectionsResponse) (rt : DirectionsRoute) (r : RouteData)
    (l : List RouteData)
    (hs : isCoordinate start = true) (hg : isCoordinate goal = true)
    (hD : env.directions ⟨start, goal, "trafast",
        if truthyStr wp then wp else none⟩ = .success data)
    (hroute : data.route = some rt)
    (h1 : profileHead rt.trafast = none)
    (h2 : profileHead rt.traoptimal = none)
    (h3 : rt.tracomfort = some (r :: l)) :
    (directionsHandler env start goal "trafast" wp).1 =
      ⟨[ContentItem.text (directionsText r.summary)]⟩ ∧
    (∀ (rt' : DirectionsRoute) (r' : RouteData) (l' : List RouteData),
      rt'.trafast = some (r' :: l') → bestRoute rt' = some r') ∧
    (∀ (rt' : DirectionsRoute) (r' : RouteData) (l' : List RouteData),
      profileHead rt'.trafast = none →
      rt'.traoptimal = some (r' :: l') → bestRoute rt' = some r') ∧
    (∀ (rt' : DirectionsRoute) (r' : RouteData) (l' : List RouteData),
      profileHead rt'.trafast = none →
      profileHead rt'.traoptimal = none →
      rt'.tracomfort = some (r' :: l') → bestRoute rt' = some r') ∧
    (∀ (rt' : DirectionsRoute) (r' : RouteData) (l' : List RouteData),
      profileHead rt'.trafast = none →
      profileHead rt'.traoptimal = none →
      profileHead rt'.tracomfort = none →
      rt'.trainormal = some (r' :: l') → bestRoute rt' = some r') ∧
    (∀ rt' : DirectionsRoute,
      profileHead rt'.trafast = none →
      profileHead rt'.traoptimal = none →
      profileHead rt'.tracomfort = none →
      profileHead rt'.trainormal = none → bestRoute rt' = none) := by
  refine ⟨?_, ?_, ?_, ?_, ?_, ?_⟩
  · have hbest : bestRoute (data.route.getD emptyRoute) = some r := by
      rw [hroute, Option.getD_some]
      unfold bestRoute
      rw [h1, h2, h3]
      simp [profileHead]
    rw [directionsHandler_found env start goal "trafast" wp start goal [] []
      data r (resolvePoint_coord _ _ hs) (resolvePoint_coord _ _ hg) hD hbest]
  · intro rt' r' l' ha
    simp [bestRoute, profileHead, ha]
  · intro rt' r' l' ha hb
    unfold bestRoute
    rw [ha, hb]
    simp [profileHead]
  · intro rt' r' l' ha hb hc
    unfold bestRoute
    rw [ha, hb, hc]
    simp [profileHead]
  · intro rt' r' l' ha hb hc hd
    unfold bestRoute
    rw [ha, hb, hc, hd]
    simp [profileHead]
  · intro rt' ha hb hc hd
    unfold bestRoute
    rw [ha, hb, hc, hd]
    rfl

/-- Claim C2 witness: a concrete environment whose directions response
populates only `tracomfort`, requested with `option = "trafast"`. -/
theorem directions_profile_precedence_witness :
    (directionsHandler
      ⟨fun _ => .success ⟨some []⟩,
        fun _ => .success ⟨some ⟨none, some [],
          some [⟨⟨5000, 600000, none, some 1500, "서울역", "강남역"⟩⟩], none⟩⟩⟩
      "127.0,37.5" "129.0,35.1" "trafast" none).1 =
      ⟨[ContentItem.text
        (directionsText ⟨5000, 600000, none, some 1500, "서울역", "강남역"⟩)]⟩ :=
  (directions_profile_precedence
    ⟨fun _ => .success ⟨some []⟩,
      fun _ => .success ⟨some ⟨none, some [],
        some [⟨⟨5000, 600000, none, some 1500, "서울역", "강남역"⟩⟩], none⟩⟩⟩
    "127.0,37.5" "129.0,35.1" none
    ⟨some ⟨none, some [],
      some [⟨⟨5000, 600000, none, some 1500, "서울역", "강남역"⟩⟩], none⟩⟩
    ⟨none, some [],
      some [⟨⟨5000, 600000, none, some 1500, "서울역", "강남역"⟩⟩], none⟩
    ⟨⟨5000, 600000, none, some 1500, "서울역", "강남역"⟩⟩ []
    (by decide) (by decide) rfl rfl rfl rfl rfl).1

/-- Claim C3: a non-success HTTP answer makes the gateway fail with the error
message carrying the status code and reason phrase (the caller receives
no body), and the owning handler's catch boundary turns it into a text
result that contains the status code. -/
theorem gateway_error_propagation (status : ℕ) (statusText : String)
    (env : String → HttpOutcome GeocodeResponse) (address : String)
    (h : env address = .fail status statusText) :
    makeNaverAPIRequest (env address) =
      .error (gatewayErrorMsg status statusText) ∧
    (geocodeHandler env address).1 =
      ⟨[.text ("오류 발생: " ++ gatewayErrorMsg status statusText)]⟩ ∧
    ∃ pre post,
      "오류 발생: " ++ gatewayErrorMsg status statusText =
        pre ++ toString status ++ post := by
  refine ⟨by rw [h]; simp [makeNaverAPIRequest], ?_, ?_⟩
  · unfold geocodeHandler
    rw [h]
    simp [makeNaverAPIRequest, errorResult]
  · refine ⟨"오류 발생: " ++ "네이버 API 오류: ", " " ++ statusText, ?_⟩
    simp only [gatewayErrorMsg, String.append_assoc]

/-- Claim C3 witness: a 403 with reason phrase Forbidden. -/
theorem gateway_error_propagation_witness :
    (geocodeHandler (fun _ => .fail 403 "Forbidden") "서울시청").1 =
      ⟨[.text ("오류 발생: " ++ gatewayErrorMsg 403 "Forbidden")]⟩ :=
  (gateway_error_propagation 403 "Forbidden"
    (fun _ => .fail 403 "Forbidden") "서울시청" rfl).2.1

/-- Claim C5: a successful provider call with zero candidates/routes yields
the fixed friendly not-found text, not an error: the geocode handler
answers exactly `주소를 찾을 수 없습니다.` and the directions handler
exactly `경로를 찾을 수 없습니다.`; both handlers are total functions,
so no exception escapes. -/
theorem empty_result_friendly_text
    (envG : String → HttpOutcome GeocodeResponse) (address : String)
    (g : GeocodeResponse) (hG : envG address = .success g)
    (hEmpty : g.addresses = none ∨ g.addresses = some [])
    (envD : DirectionsEnv) (start goal option : String) (wp : Option String)
    (d : DirectionsResponse)
    (hs : isCoordinate start = true) (hg : isCoordinate goal = true)
    (hD : envD.directions ⟨start, goal, option,
        if truthyStr wp then wp else none⟩ = .success d)
    (hNo : bestRoute (d.route.getD emptyRoute) = none) :
    (geocodeHandler envG address).1 = ⟨[.text geocodeNotFoundText]⟩ ∧
    (directionsHandler envD start goal option wp).1 =
      ⟨[.text routeNotFoundText]⟩ := by
  constructor
  · unfold geocodeHandler
    rw [hG]
    rcases hEmpty with he | he <;> simp [makeNaverAPIRequest, he]
  · rw [directionsHandler_notFound envD start goal option wp start goal [] []
      d (resolvePoint_coord _ _ hs) (resolvePoint_coord _ _ hg) hD hNo]

/-- Claim C5 witness: concrete empty geocode and directions responses. -/
theorem empty_result_friendly_text_witness :
    (geocodeHandler (fun _ => .success ⟨some []⟩) "어딘가").1 =
      ⟨[.text geocodeNotFoundText]⟩ ∧
    (directionsHandler ⟨fun _ => .success ⟨none⟩,
        fun _ => .success ⟨some ⟨some [], none, some [], none⟩⟩⟩
      "127.0,37.5" "129.0,35.1" "trafast" none).1 =
      ⟨[.text routeNotFoundText]⟩ :=
  empty_result_friendly_text _ "어딘가" _ rfl (Or.inr rfl) _
    "127.0,37.5" "129.0,35.1" "trafast" none _ (by decide) (by decide) rfl rfl

/-- Claim C4: in the directions handler each of start/goal is resolved
independently: a classifier-accepted string issues no geocode call and
is forwarded unchanged; a rejected string issues exactly one geocode
call, is replaced by `x,y` of the first candidate when one exists, and
survives unchanged on zero candidates; with both inputs already
coordinates the handler issues no geocode call at all and calls the
directions endpoint with the inputs unchanged. -/
theorem geocode_if_not_coordinate
    (g : String → HttpOutcome GeocodeResponse) (s : String) :
    (isCoordinate s = true → resolvePoint g s = (.ok s, [])) ∧
    (∀ (geo : GeocodeResponse) (a : GeocodeAddr) (rest : List GeocodeAddr),
      isCoordinate s = false → g s = .success geo →
      geo.addresses = some (a :: rest) →
      resolvePoint g s = (.ok (a.x ++ "," ++ a.y), [ApiCall.geocode s])) ∧
    (∀ geo : GeocodeResponse, isCoordinate s = false → g s = .success geo →
      geo.addresses = none ∨ geo.addresses = some [] →
      resolvePoint g s = (.ok s, [ApiCall.geocode s])) ∧
    (∀ (env : DirectionsEnv) (start goal option : String) (wp : Option String),
      isCoordinate start = true → isCoordinate goal = true →
      (directionsHandler env start goal option wp).2 =
        [ApiCall.directions ⟨start, goal, option,
          if truthyStr wp then wp else none⟩]) := by
  refine ⟨fun h => resolvePoint_coord g s h,
    fun geo a rest h hg ha => resolvePoint_hit g s geo a rest h hg ha,
    fun geo h hg ha => resolvePoint_miss g s geo h hg ha,
    fun env start goal option wp hstart hgoal => ?_⟩
  unfold directionsHandler
  rw [resolvePoint_coord _ _ hstart, resolvePoint_coord _ _ hgoal]
  dsimp only
  split
  · simp
  · split <;> simp

/-- Claim C4 witness: a non-coordinate start resolved through one geocode
call, and a fully-coordinate invocation issuing zero geocode calls. -/
theorem geocode_if_not_coordinate_witness :
    resolvePoint (fun _ => .success ⟨some [⟨"127.1", "37.4", none, none⟩]⟩)
        "서울시청" =
      (.ok ("127.1" ++ "," ++ "37.4"), [ApiCall.geocode "서울시청"]) ∧
    (directionsHandler ⟨fun _ => .success ⟨none⟩, fun _ => .success ⟨none⟩⟩
      "127.0,37.5" "129.0,35.1" "trafast" none).2 =
      [ApiCall.directions ⟨"127.0,37.5", "129.0,35.1", "trafast", none⟩] :=
  ⟨(geocode_if_not_coordinate
      (fun _ => .success ⟨some [⟨"127.1", "37.4", none, none⟩]⟩) "서울시청").2.1
      ⟨some [⟨"127.1", "37.4", none, none⟩]⟩ ⟨"127.1", "37.4", none, none⟩ []
      (by decide) rfl rfl,
    (geocode_if_not_coordinate (fun _ => .success ⟨none⟩) "x").2.2.2
      ⟨fun _ => .success ⟨none⟩, fun _ => .success ⟨none⟩⟩
      "127.0,37.5" "129.0,35.1" "trafast" none (by decide) (by decide)⟩

/-- Claim C6: the reverse-geocode handler always sends the wire parameter
`coords` as `lng ++ "," ++ lat` (longitude first, the reverse of the
input order), and on a non-empty result answers with the first result's
text label paired with the original inputs in lat, lng order. -/
theorem reverse_geocode_wire_order
    (numToStr : ℚ → String)
    (env : ReverseGeocodeParams → HttpOutcome ReverseGeocodeResponse)
    (lat lng : ℚ) :
    (reverseGeocodeHandler numToStr env lat lng).2 =
      [ApiCall.reverseGeocode ⟨numToStr lng ++ "," ++ numToStr lat, "json"⟩] ∧
    (∀ (resp : ReverseGeocodeResponse) (r : ReverseGeocodeResult)
        (rest : List ReverseGeocodeResult),
      env ⟨numToStr lng ++ "," ++ numToStr lat, "json"⟩ = .success resp →
      resp.results = some (r :: rest) →
      (reverseGeocodeHandler numToStr env lat lng).1 =
        ⟨[.text ("🌐 좌표: " ++ numToStr lat ++ ", " ++ numToStr lng ++
          "\n📍 주소: " ++ r.text)]⟩) := by
  constructor
  · unfold reverseGeocodeHandler
    dsimp only
    split
    · rfl
    · split <;> rfl
  · intro resp r rest henv hres
    unfold reverseGeocodeHandler
    dsimp only
    rw [henv]
    simp [makeNaverAPIRequest, hres]

/-- Claim C6 witness: a concrete lat/lng pair and a one-result response. -/
theorem reverse_geocode_wire_order_witness :
    (reverseGeocodeHandler (fun q => toString q.num)
      (fun _ => .success ⟨some [⟨"서울특별시 중구"⟩]⟩) 37 127).2 =
      [ApiCall.reverseGeocode ⟨toString (127 : ℚ).num ++ "," ++
        toString (37 : ℚ).num, "json"⟩] ∧
    (reverseGeocodeHandler (fun q => toString q.num)
      (fun _ => .success ⟨some [⟨"서울특별시 중구"⟩]⟩) 37 127).1 =
      ⟨[.text ("🌐 좌표: " ++ toString (37 : ℚ).num ++ ", " ++
        toString (127 : ℚ).num ++ "\n📍 주소: " ++ "서울특별시 중구")]⟩ :=
  ⟨(reverse_geocode_wire_order (fun q => toString q.num)
      (fun _ => .success ⟨some [⟨"서울특별시 중구"⟩]⟩) 37 127).1,
    (reverse_geocode_wire_order (fun q => toString q.num)
      (fun _ => .success ⟨some [⟨"서울특별시 중구"⟩]⟩) 37 127).2
      ⟨some [⟨"서울특별시 중구"⟩]⟩ ⟨"서울특별시 중구"⟩ [] rfl rfl⟩

/-- Claim C7: on a found route the handler's text is assembled from exactly
the derived fields — distance `(meters/1000)` to one decimal place,
duration `milliseconds/60000` rounded to the nearest minute, toll fare
and fuel price with thousands separators and the `원` suffix defaulting
to `0원` when absent, and the provider's resolved start/goal labels —
where the integer tenths-of-km and minutes values are the exact
nearest-value roundings (within 1/20 km and 1/2 minute). -/
theorem directions_derived_fields
    (env : DirectionsEnv) (start goal option : String) (wp : Option String)
    (data : DirectionsResponse) (best : RouteData)
    (hs : isCoordinate start = true) (hg : isCoordinate goal = true)
    (hD : env.directions ⟨start, goal, option,
        if truthyStr wp then wp else none⟩ = .success data)
    (hbest : bestRoute (data.route.getD emptyRoute) = some best) :
    (directionsHandler env start goal option wp).1 =
      ⟨[.text (directionsText best.summary)]⟩ ∧
    (∀ s : RouteSummary, directionsText s =
      "🚗 길찾기 결과\n\n📍 출발: " ++ s.startLocation ++
        "\n📍 도착: " ++ s.goalLocation ++
        "\n\n📏 거리: " ++ kmString s.distance ++ "km" ++
        "\n⏱️ 소요시간: " ++ toString (minutesOf s.duration) ++ "분" ++
        "\n💰 통행료: " ++ formatFare s.tollFare ++
        "\n⛽ 예상 연료비: " ++ formatFare s.fuelPrice) ∧
    (∀ m : ℕ, |(kmTenths m : ℚ) / 10 - (m : ℚ) / 1000| ≤ 1 / 20) ∧
    (∀ d : ℕ, |(minutesOf d : ℚ) - (d : ℚ) / 60000| ≤ 1 / 2) ∧
    formatFare none = "0원" ∧
    (∀ v : ℕ, v ≠ 0 → formatFare (some v) = toLocaleStringNat v ++ "원") := by
  refine ⟨?_, fun s => rfl, ?_, ?_, rfl, fun v hv => by simp [formatFare, hv]⟩
  · rw [directionsHandler_found env start goal option wp start goal [] []
      data best (resolvePoint_coord _ _ hs) (resolvePoint_coord _ _ hg) hD hbest]
  · intro m
    have h1 : 100 * kmTenths m ≤ m + 50 ∧ m + 50 < 100 * kmTenths m + 100 := by
      unfold kmTenths
      omega
    have hA : (100 * kmTenths m : ℚ) ≤ (m : ℚ) + 50 := by exact_mod_cast h1.1
    have hB : (m : ℚ) + 50 < 100 * kmTenths m + 100 := by exact_mod_cast h1.2
    rw [abs_le]
    constructor <;> linarith
  · intro d
    have h1 : 60000 * minutesOf d ≤ d + 30000 ∧
        d + 30000 < 60000 * minutesOf d + 60000 := by
      unfold minutesOf
      omega
    have hA : (60000 * minutesOf d : ℚ) ≤ (d : ℚ) + 30000 := by
      exact_mod_cast h1.1
    have hB : (d : ℚ) + 30000 < 60000 * minutesOf d + 60000 := by
      exact_mod_cast h1.2
    rw [abs_le]
    constructor <;> linarith

/-- Claim C7 witness: a concrete route whose summary exercises every derived
field (12345 m → 12.3 km, 185000 ms → 3 min, toll 0 → `0원`, fuel
2500 → `2,500원`). -/
theorem directions_derived_fields_witness :
    (directionsHandler ⟨fun _ => .success ⟨none⟩,
        fun _ => .success ⟨some ⟨some
          [⟨⟨12345, 185000, some 0, some 2500, "서울역", "부산역"⟩⟩],
          none, none, none⟩⟩⟩
      "127.0,37.5" "129.0,35.1" "trafast" none).1 =
      ⟨[.text (directionsText
        ⟨12345, 185000, some 0, some 2500, "서울역", "부산역"⟩)]⟩ :=
  (directions_derived_fields ⟨fun _ => .success ⟨none⟩,
      fun _ => .success ⟨some ⟨some
        [⟨⟨12345, 185000, some 0, some 2500, "서울역", "부산역"⟩⟩],
        none, none, none⟩⟩⟩
    "127.0,37.5" "129.0,35.1" "trafast" none
    ⟨some ⟨some [⟨⟨12345, 185000, some 0, some 2500, "서울역", "부산역"⟩⟩],
      none, none, none⟩⟩
    ⟨⟨12345, 185000, some 0, some 2500, "서울역", "부산역"⟩⟩
    (by decide) (by decide) rfl rfl).1

example :
    directionsText ⟨12345, 185000, some 0, some 2500, "서울역", "부산역"⟩ =
      "🚗 길찾기 결과\n\n📍 출발: 서울역\n📍 도착: 부산역" ++
        "\n\n📏 거리: 12.3km\n⏱️ 소요시간: 3분\n💰 통행료: 0원" ++
        "\n⛽ 예상 연료비: 2,500원" := by decide

/-- Claim C8 counterexample: with a non-coordinate center and a successful
geocode response carrying zero candidates, the static-map handler does
not forward the original center to the static-map endpoint — it issues
no static-map fetch at all and returns the geocoding error text. -/
theorem staticmap_zero_candidate_counterexample :
    staticMapHandler ⟨fun _ => .success ⟨some []⟩, fun _ => .success [1, 2, 3]⟩
        "서울시청" 6 400 400 "png" =
      (⟨[.text ("오류 발생: " ++ geocodeEmptyError)]⟩,
        [ApiCall.geocode "서울시청"]) := by
  decide

/-- Claim C8 (amended): the static-map handler resolves a non-coordinate
center like the directions handler does when candidates exist — no
geocode call for a classifier-accepted center, replacement by the first
candidate's `x,y` otherwise — then fetches the static-map endpoint as
binary, base64-encodes the bytes into a `data:` URI returned inline
with a parameter caption; but on a zero-candidate geocode response it
throws `지오코딩 결과가 없습니다.`, surfaced by the catch boundary as an
error text, and performs no static-map fetch. -/
theorem staticmap_resolution_and_encoding (env : StaticMapEnv)
    (center : String) (level w h : ℕ) (format : String) :
    (∀ buf : List ℕ, isCoordinate center = true →
      env.staticMap ⟨center, level, w, h, format⟩ = .success buf →
      staticMapHandler env center level w h format =
        (⟨[.image ("data:image/" ++ format ++ ";base64," ++
            String.mk (b64EncodeList buf)),
          .text (staticMapCaption center level w h)]⟩,
          [ApiCall.staticMap ⟨center, level, w, h, format⟩])) ∧
    (∀ (geo : GeocodeResponse) (a : GeocodeAddr) (rest : List GeocodeAddr)
        (buf : List ℕ), isCoordinate center = false →
      env.geocode center = .success geo →
      geo.addresses = some (a :: rest) →
      env.staticMap ⟨a.x ++ "," ++ a.y, level, w, h, format⟩ = .success buf →
      staticMapHandler env center level w h format =
        (⟨[.image ("data:image/" ++ format ++ ";base64," ++
            String.mk (b64EncodeList buf)),
          .text (staticMapCaption (a.x ++ "," ++ a.y) level w h)]⟩,
          [ApiCall.geocode center,
            ApiCall.staticMap ⟨a.x ++ "," ++ a.y, level, w, h, format⟩])) ∧
    (∀ geo : GeocodeResponse, isCoordinate center = false →
      env.geocode center = .success geo →
      geo.addresses = none ∨ geo.addresses = some [] →
      staticMapHandler env center level w h format =
        (errorResult geocodeEmptyError, [ApiCall.geocode center])) := by
  refine ⟨fun buf hc hf => ?_, fun geo a rest buf hc hg ha hf => ?_,
    fun geo hc hg ha => ?_⟩
  · unfold staticMapHandler staticMapBody
    rw [if_pos hc]
    dsimp only
    rw [hf]
    simp [makeNaverAPIRequest]
  · unfold staticMapHandler staticMapBody
    rw [if_neg (by simp [hc]), hg]
    simp only [makeNaverAPIRequest, ha]
    rw [hf]
    simp [makeNaverAPIRequest]
  · unfold staticMapHandler staticMapBody
    rw [if_neg (by simp [hc]), hg]
    rcases ha with ha | ha <;> simp [makeNaverAPIRequest, ha]

/-- Claim C8 witness: a coordinate center goes straight to the static-map
fetch and comes back as an inline base64 image with its caption. -/
theorem staticmap_resolution_and_encoding_witness :
    staticMapHandler ⟨fun _ => .success ⟨some []⟩,
        fun _ => .success [77, 97, 110]⟩ "127.0,37.5" 6 400 400 "png" =
      (⟨[.image ("data:image/" ++ "png" ++ ";base64," ++
          String.mk (b64EncodeList [77, 97, 110])),
        .text (staticMapCaption "127.0,37.5" 6 400 400)]⟩,
        [ApiCall.staticMap ⟨"127.0,37.5", 6, 400, 400, "png"⟩]) :=
  (staticmap_resolution_and_encoding ⟨fun _ => .success ⟨some []⟩,
      fun _ => .success [77, 97, 110]⟩ "127.0,37.5" 6 400 400 "png").1
    [77, 97, 110] (by decide) rfl

/-! ## Base64 inverse lemmas -/

theorem b64Val_b64Char_fin : ∀ s : Fin 64, b64Val (b64Char s.val) = some s.val := by
  decide

theorem b64Char_ne_pad_fin : ∀ s : Fin 64, b64Char s.val ≠ '=' := by
  decide

theorem b64Val_b64Char (s : ℕ) (h : s < 64) : b64Val (b64Char s) = some s :=
  b64Val_b64Char_fin ⟨s, h⟩

theorem b64Char_ne_pad (s : ℕ) (h : s < 64) : b64Char s ≠ '=' :=
  b64Char_ne_pad_fin ⟨s, h⟩

/-- Claim C9: decoding the base64 encoding the static-map handler embeds in
its data URI reproduces the original byte buffer exactly. -/
theorem b64_roundtrip : ∀ bs : List ℕ, (∀ x ∈ bs, x < 256) →
    b64DecodeList (b64EncodeList bs) = some bs
  | [], _ => rfl
  | [a], h => by
    have ha : a < 256 := h a (by simp)
    simp only [b64EncodeList, b64DecodeList]
    rw [b64Val_b64Char (a / 4) (by omega), b64Val_b64Char (a % 4 * 16) (by omega)]
    simp
    omega
  | [a, b], h => by
    have ha : a < 256 := h a (by simp)
    have hb : b < 256 := h b (by simp)
    simp only [b64EncodeList, b64DecodeList]
    rw [b64Val_b64Char (a / 4) (by omega),
      b64Val_b64Char (a % 4 * 16 + b / 16) (by omega)]
    dsimp only
    rw [if_neg (b64Char_ne_pad (b % 16 * 4) (by omega)),
      b64Val_b64Char (b % 16 * 4) (by omega)]
    simp
    constructor <;> omega
  | a :: b :: c :: rest, h => by
    have ha : a < 256 := h a (by simp)
    have hb : b < 256 := h b (by simp)
    have hc : c < 256 := h c (by simp)
    have ih := b64_roundtrip rest (fun x hx => h x (by simp [hx]))
    simp only [b64EncodeList, b64DecodeList]
    rw [b64Val_b64Char (a / 4) (by omega),
      b64Val_b64Char (a % 4 * 16 + b / 16) (by omega)]
    dsimp only
    rw [if_neg (b64Char_ne_pad (b % 16 * 4 + c / 64) (by omega)),
      b64Val_b64Char (b % 16 * 4 + c / 64) (by omega)]
    dsimp only
    rw [if_neg (b64Char_ne_pad (c % 64) (by omega)),
      b64Val_b64Char (c % 64) (by omega), ih]
    simp
    refine ⟨by omega, by omega, by omega⟩

/-- Claim C9 witness: the PNG magic bytes survive the round trip. -/
theorem b64_roundtrip_witness :
    (∀ x ∈ [137, 80, 78, 71, 13, 10, 26, 10], x < 256) ∧
    b64DecodeList (b64EncodeList [137, 80, 78, 71, 13, 10, 26, 10]) =
      some [137, 80, 78, 71, 13, 10, 26, 10] :=
  ⟨by decide, b64_roundtrip [137, 80, 78, 71, 13, 10, 26, 10] (by decide)⟩

/-- Claim C10: a toll fare or fuel price present with numeric value 0 is
formatted by the same `0원` default as an absent one — the default
branch is taken on falsy values, not only on missing ones — so the
directions output text cannot distinguish a confirmed zero fare from a
missing fare. -/
theorem zero_fare_indistinguishable :
    formatFare (some 0) = "0원" ∧ formatFare none = "0원" ∧
    ∀ s : RouteSummary,
      directionsText { s with tollFare := some 0 } =
        directionsText { s with tollFare := none } ∧
      directionsText { s with fuelPrice := some 0 } =
        directionsText { s with fuelPrice := none } := by
  refine ⟨rfl, rfl, fun s => ⟨?_, ?_⟩⟩ <;> simp [directionsText, formatFare]
